import Mathlib

/-!
# AlgoFOMO game logic: shallow embedding and verification

This file embeds the core game logic of the AlgoFOMO betting demo
(bet-impact formula, momentum update, round-ending cron, winner and payout
calculation, round timers, and request validation) and proves the stated
properties about it.

Sources:
* backend plan `calculate_bet_impact` / Impact Calculation (clamped
  `log10(amount) * prompt_power * random_factor` formula),
* backend plan `update_momentum`, `calculate_winners`, `cron_end_round`,
  Timer Management (round start and bet deadline updates),
* `BetRequest` Pydantic validators (`validate_side`, `validate_prompt`),
* frontend `BetDrawer.tsx` (word counting, submit guards) and the
  `/admin/reset` endpoint description.

Real-valued arithmetic (`log10`, random factors) is modelled over `ℝ`;
money amounts and momentum columns are integers as in the database schema;
Python float expressions in the payout code are modelled over `ℚ` with
`int()` truncation made explicit.
-/

namespace AlgoFOMO

/-- Splitting a character list into its maximal non-whitespace fragments;
the accumulator carries the current fragment in reverse. Empty fragments
are never produced, matching `split(/\s+/)` followed by
`filter((word) => word.length > 0)`. -/
def splitWords : List Char → List Char → List (List Char)
  | [], acc => if acc.isEmpty then [] else [acc.reverse]
  | c :: cs, acc =>
    if c.isWhitespace then
      if acc.isEmpty then splitWords cs [] else acc.reverse :: splitWords cs []
    else splitWords cs (c :: acc)

/-- Word counting as done by `BetDrawer.handleSpellChange`:
`text.trim().split(/\s+/).filter((word) => word.length > 0).length`.
Splitting on whitespace runs and dropping empty fragments yields exactly
the maximal non-whitespace fragments, and the leading `trim()` cannot
change their number. -/
def countWords (text : String) : Nat := (splitWords text.toList []).length

/-- `prompt_power`: the number of words in the spell divided by 10, clamped
between 0.5 and 1.5 (backend plan, Impact Calculation section;
`min(max(words / 10, 0.5), 1.5)` in the FOMO RUMBLE draft). -/
noncomputable def prompt_power (num_words : Nat) : ℝ :=
  min (max ((num_words : ℝ) / 10) 0.5) 1.5

/-- `calculate_bet_impact` (backend plan, Impact Calculation section):
`impact = min( log10(bet_amount) * prompt_power * random_factor, 10.0 )`,
with `bet_amount` clamped to be `>= 1.0` before `log10` and the final
result clamped to be non-negative via `max(0.0, calculated_value)`. -/
noncomputable def calculate_bet_impact (bet_amount : ℝ) (spell : String)
    (random_factor : ℝ) : ℝ :=
  max 0 (min (Real.logb 10 (max bet_amount 1) * prompt_power (countWords spell)
      * random_factor) 10)

/-- `update_momentum` (backend plan, Momentum Update section): subtract the
impact for side `'L'`, add it otherwise, then clamp the result into
`[0, 100]` via `max(0, min(100, new_momentum))`. -/
def update_momentum (current_momentum impact : ℚ) (side : String) : ℚ :=
  max 0 (min 100
    (if side = "L" then current_momentum - impact else current_momentum + impact))

theorem prompt_power_mem (w : Nat) : 0.5 ≤ prompt_power w ∧ prompt_power w ≤ 1.5 := by
  unfold prompt_power
  constructor
  · exact le_min (le_max_right _ _) (by norm_num)
  · exact min_le_right _ _

/-- C1: for every bet amount, spell and random factor in `[0.8, 1.2]`, the
computed impact equals `min(log10(max(amount,1)) * promptPower * randomFactor, 10)`
(the final non-negativity clamp is inert), and the impact lies in `[0, 10]`. -/
theorem bet_impact_formula_and_range (bet_amount : ℝ) (spell : String)
    (random_factor : ℝ) (h1 : 0.8 ≤ random_factor) (h2 : random_factor ≤ 1.2) :
    calculate_bet_impact bet_amount spell random_factor
      = min (Real.logb 10 (max bet_amount 1) * prompt_power (countWords spell)
          * random_factor) 10 ∧
    0 ≤ calculate_bet_impact bet_amount spell random_factor ∧
    calculate_bet_impact bet_amount spell random_factor ≤ 10 := by
  have hlog : 0 ≤ Real.logb 10 (max bet_amount 1) :=
    Real.logb_nonneg (by norm_num) (le_max_right bet_amount 1)
  have hpp : 0 ≤ prompt_power (countWords spell) :=
    le_trans (by norm_num) (prompt_power_mem (countWords spell)).1
  have hrf : 0 ≤ random_factor := le_trans (by norm_num) h1
  have hprod : 0 ≤ Real.logb 10 (max bet_amount 1) * prompt_power (countWords spell)
      * random_factor := mul_nonneg (mul_nonneg hlog hpp) hrf
  have hmin : 0 ≤ min (Real.logb 10 (max bet_amount 1)
      * prompt_power (countWords spell) * random_factor) 10 :=
    le_min hprod (by norm_num)
  have heq : calculate_bet_impact bet_amount spell random_factor
      = min (Real.logb 10 (max bet_amount 1) * prompt_power (countWords spell)
          * random_factor) 10 := by
    unfold calculate_bet_impact
    exact max_eq_right hmin
  refine ⟨heq, ?_, ?_⟩
  · rw [heq]; exact hmin
  · rw [heq]; exact min_le_right _ _

/-- Witness for C1 at bet amount 100, a two-word spell and random factor 1. -/
theorem bet_impact_formula_and_range_witness :
    calculate_bet_impact 100 "arcane fire" 1
      = min (Real.logb 10 (max 100 1) * prompt_power (countWords "arcane fire") * 1) 10 ∧
    0 ≤ calculate_bet_impact 100 "arcane fire" 1 ∧
    calculate_bet_impact 100 "arcane fire" 1 ≤ 10 :=
  bet_impact_formula_and_range 100 "arcane fire" 1 (by norm_num) (by norm_num)

/-- C2: if momentum is in `[0, 100]` and the bet impact is non-negative, the
updated momentum is again in `[0, 100]`. -/
theorem update_momentum_mem (m impact : ℚ) (side : String)
    (h1 : 0 ≤ m) (h2 : m ≤ 100) (h3 : 0 ≤ impact) :
    0 ≤ update_momentum m impact side ∧ update_momentum m impact side ≤ 100 := by
  unfold update_momentum
  exact ⟨le_max_left _ _, max_le (by norm_num) (min_le_left _ _)⟩

/-- Witness for C2 at momentum 50, impact 3, side `"L"`. -/
theorem update_momentum_mem_witness :
    0 ≤ update_momentum 50 3 "L" ∧ update_momentum 50 3 "L" ≤ 100 :=
  update_momentum_mem 50 3 "L" (by norm_num) (by norm_num) (by norm_num)

/-- C10: from a valid momentum and a non-negative impact, a left-side bet
never increases the momentum and a right-side bet never decreases it. -/
theorem update_momentum_directional (m impact : ℚ)
    (h1 : 0 ≤ m) (h2 : m ≤ 100) (h3 : 0 ≤ impact) :
    update_momentum m impact "L" ≤ m ∧ m ≤ update_momentum m impact "R" := by
  unfold update_momentum
  constructor
  · rw [if_pos rfl]
    exact max_le h1 (le_trans (min_le_right _ _) (by linarith))
  · rw [if_neg (by decide)]
    exact le_trans (le_min h2 (by linarith)) (le_max_right _ _)

/-- Witness for C10 at momentum 50 and impact 3. -/
theorem update_momentum_directional_witness :
    update_momentum 50 3 "L" ≤ 50 ∧ 50 ≤ update_momentum 50 3 "R" :=
  update_momentum_directional 50 3 (by norm_num) (by norm_num) (by norm_num)

/-- A row of the `rounds` table as consulted by the round-ending cron:
momentum (integer 0-100 column), the two deadlines (timestamps, modelled as
epoch seconds) and the active flag. -/
structure GameRound where
  momentum : ℤ
  current_deadline : ℤ
  absolute_deadline : ℤ
  active : Bool
deriving DecidableEq

/-- `cron_end_round` (backend plan, Background Jobs): fetch the current
active round (`none` when there is no active round, in which case nothing
happens), then check the end conditions in order: (a) momentum hit 0 or
100, (b) now is at or past `current_deadline`, (c) now is at or past
`absolute_deadline`; if any holds the round is marked as ended, otherwise
it is left untouched. -/
def cron_end_round (active_round : Option GameRound) (now : ℤ) : Option GameRound :=
  match active_round with
  | none => none
  | some r =>
    if r.momentum = 0 ∨ r.momentum = 100 then some { r with active := false }
    else if r.current_deadline ≤ now then some { r with active := false }
    else if r.absolute_deadline ≤ now then some { r with active := false }
    else some r

/-- C3: the cron check does nothing when there is no active round; it marks
the active round as ended exactly when momentum hit 0 or 100, or now is at
or past `current_deadline`, or now is at or past `absolute_deadline`; when
none of the three conditions holds the round is returned unchanged. -/
theorem cron_end_round_spec (r : GameRound) (now : ℤ) :
    cron_end_round none now = none ∧
    (r.momentum = 0 ∨ r.momentum = 100 ∨ r.current_deadline ≤ now ∨
        r.absolute_deadline ≤ now →
      cron_end_round (some r) now = some { r with active := false }) ∧
    (r.momentum ≠ 0 → r.momentum ≠ 100 → now < r.current_deadline →
        now < r.absolute_deadline →
      cron_end_round (some r) now = some r) := by
  refine ⟨rfl, ?_, ?_⟩
  · intro h
    simp only [cron_end_round]
    split_ifs with h1 h2 h3
    · rfl
    · rfl
    · rfl
    · exfalso
      rcases h with h | h | h | h
      · exact h1 (Or.inl h)
      · exact h1 (Or.inr h)
      · exact h2 h
      · exact h3 h
  · intro hm0 hm100 hcd had
    simp only [cron_end_round]
    split_ifs with h1 h2 h3
    · exact absurd h1 (by tauto)
    · omega
    · omega
    · rfl

/-- Witness for C3: a round at momentum 100 is ended, a mid-round at
momentum 50 before both deadlines is left unchanged. -/
theorem cron_end_round_spec_witness :
    cron_end_round (some ⟨100, 10, 20, true⟩) 0 = some ⟨100, 10, 20, false⟩ ∧
    cron_end_round (some ⟨50, 10, 20, true⟩) 0 = some ⟨50, 10, 20, true⟩ :=
  ⟨(cron_end_round_spec ⟨100, 10, 20, true⟩ 0).2.1 (Or.inr (Or.inl rfl)),
   (cron_end_round_spec ⟨50, 10, 20, true⟩ 0).2.2 (by decide) (by decide)
     (by decide) (by decide)⟩

/-- Winning-side determination from `calculate_winners` (backend plan):
`'L'` when final momentum is at most 0, `'R'` when it is at least 100, and
on a timeout the side closer to its edge: `'L'` when momentum is below 50,
`'R'` otherwise. -/
def calculate_winning_side (momentum : ℤ) : String :=
  if momentum ≤ 0 then "L"
  else if momentum ≥ 100 then "R"
  else if momentum < 50 then "L" else "R"

/-- C4: left wins when momentum is at most 0, right wins when it is at
least 100; on a timeout the side closer to its edge wins (left below 50,
right at or above 50), and momentum exactly 50 awards the right side. -/
theorem calculate_winning_side_spec (momentum : ℤ) :
    (momentum ≤ 0 → calculate_winning_side momentum = "L") ∧
    (100 ≤ momentum → calculate_winning_side momentum = "R") ∧
    (0 < momentum → momentum < 50 → calculate_winning_side momentum = "L") ∧
    (50 ≤ momentum → momentum < 100 → calculate_winning_side momentum = "R") ∧
    calculate_winning_side 50 = "R" := by
  refine ⟨?_, ?_, ?_, ?_, by decide⟩
  all_goals
    intros
    unfold calculate_winning_side
    split_ifs <;> first | rfl | omega

/-- Witness for C4 at momenta 0, 100, 30 and 60. -/
theorem calculate_winning_side_spec_witness :
    calculate_winning_side 0 = "L" ∧ calculate_winning_side 100 = "R" ∧
    calculate_winning_side 30 = "L" ∧ calculate_winning_side 60 = "R" :=
  ⟨(calculate_winning_side_spec 0).1 (by decide),
   (calculate_winning_side_spec 100).2.1 (by decide),
   (calculate_winning_side_spec 30).2.2.1 (by decide) (by decide),
   (calculate_winning_side_spec 60).2.2.2.1 (by decide) (by decide)⟩

/-- `ROUND_INACTIVITY_TIMEOUT_SEC=1200`: 20 minutes with no bets end the
round (environment configuration in the tech spec and backend plan). -/
def ROUND_INACTIVITY_TIMEOUT_SEC : ℤ := 1200

/-- `MAX_ROUND_DURATION_SEC=86400`: 24-hour absolute maximum round
duration from round start. -/
def MAX_ROUND_DURATION_SEC : ℤ := 86400

/-- The timer fields of a round (Timer Management section of the backend
plan). -/
structure RoundTimers where
  started_at : ℤ
  current_deadline : ℤ
  absolute_deadline : ℤ
deriving DecidableEq

/-- Round start (`/admin/reset`): `started_at = now`,
`absolute_deadline = started_at + MAX_ROUND_DURATION_SEC`,
`current_deadline = started_at + ROUND_INACTIVITY_TIMEOUT_SEC`. -/
def start_round (now : ℤ) : RoundTimers :=
  { started_at := now
    current_deadline := now + ROUND_INACTIVITY_TIMEOUT_SEC
    absolute_deadline := now + MAX_ROUND_DURATION_SEC }

/-- Bet placement deadline update (Timer Management section): the new
`current_deadline` is `now + ROUND_INACTIVITY_TIMEOUT_SEC`, capped at the
round's `absolute_deadline`. -/
def place_bet_deadline_update (r : RoundTimers) (now : ℤ) : RoundTimers :=
  { r with current_deadline := min (now + ROUND_INACTIVITY_TIMEOUT_SEC) r.absolute_deadline }

/-- Round timer states reachable through the API: a round starts via
`/admin/reset` and each accepted bet updates `current_deadline`. -/
inductive ReachableTimers : RoundTimers → Prop
  | start (now : ℤ) : ReachableTimers (start_round now)
  | bet (r : RoundTimers) (now : ℤ) : ReachableTimers r →
      ReachableTimers (place_bet_deadline_update r now)

/-- C6: after every accepted bet the round's `current_deadline` equals
`min(now + ROUND_INACTIVITY_TIMEOUT_SEC, absolute_deadline)` and the
absolute deadline is untouched; consequently every reachable round state
satisfies `current_deadline ≤ absolute_deadline`. -/
theorem current_deadline_le_absolute :
    (∀ (r : RoundTimers) (now : ℤ),
      (place_bet_deadline_update r now).current_deadline
          = min (now + ROUND_INACTIVITY_TIMEOUT_SEC) r.absolute_deadline ∧
      (place_bet_deadline_update r now).absolute_deadline = r.absolute_deadline) ∧
    (∀ r : RoundTimers, ReachableTimers r →
      r.current_deadline ≤ r.absolute_deadline) := by
  refine ⟨fun r now => ⟨by simp only [place_bet_deadline_update], rfl⟩,
    fun r h => ?_⟩
  induction h with
  | start now =>
    simp only [start_round, ROUND_INACTIVITY_TIMEOUT_SEC, MAX_ROUND_DURATION_SEC]
    omega
  | bet r now _ _ =>
    simp only [place_bet_deadline_update]
    omega

/-- Witness for C6: the round started at time 0 and a bet placed on it at
time 5 both satisfy the deadline invariant. -/
theorem current_deadline_le_absolute_witness :
    (start_round 0).current_deadline ≤ (start_round 0).absolute_deadline ∧
    (place_bet_deadline_update (start_round 0) 5).current_deadline
      ≤ (place_bet_deadline_update (start_round 0) 5).absolute_deadline :=
  ⟨current_deadline_le_absolute.2 (start_round 0) (ReachableTimers.start 0),
   current_deadline_le_absolute.2 (place_bet_deadline_update (start_round 0) 5)
     (ReachableTimers.bet (start_round 0) 5 (ReachableTimers.start 0))⟩

/-- Python `int()` applied to an exact rational value: truncation toward
zero (floor for non-negative values, ceiling for negative ones). -/
def pyInt (q : ℚ) : ℤ := if 0 ≤ q then ⌊q⌋ else ⌈q⌉

/-- A bet row as used by `calculate_winners`: the bettor's address and the
integer amount. -/
structure Bet where
  sender : String
  amount : ℤ
deriving DecidableEq

/-- One payout entry produced by `calculate_winners`. -/
structure Payout where
  address : String
  amount : ℤ
deriving DecidableEq

/-- The developer wallet address (`ADMIN_ADDRESS` configuration constant;
its value is environment configuration and irrelevant to the arithmetic). -/
def ADMIN_ADDRESS : String := "ADMIN_ADDRESS"

/-- Per-winner payout amount from `calculate_winners`:
`int((bet.amount / total_winning_amount) * winner_pot)` with
`winner_pot = round.pot * 0.9`. -/
def winner_payout_amount (pot total_winning_amount amount : ℤ) : ℤ :=
  pyInt (((amount : ℚ) / (total_winning_amount : ℚ)) * ((pot : ℚ) * (9 / 10)))

/-- Admin payout from `calculate_winners`: `int(round.pot * 0.1)`. -/
def admin_payout_amount (pot : ℤ) : ℤ := pyInt ((pot : ℚ) * (1 / 10))

/-- The payout list built by `calculate_winners` (backend plan): one entry
per winning bet, proportional to its amount out of the side's total, then
the 10% admin entry. -/
def calculate_payouts (pot : ℤ) (winning_bets : List Bet) : List Payout :=
  (winning_bets.map fun b =>
    ⟨b.sender, winner_payout_amount pot ((winning_bets.map Bet.amount).sum) b.amount⟩)
  ++ [⟨ADMIN_ADDRESS, admin_payout_amount pot⟩]

theorem pyInt_eq_floor (q : ℚ) (h : 0 ≤ q) : pyInt q = ⌊q⌋ := if_pos h

theorem floor_add_floor_le (x y : ℚ) : ⌊x⌋ + ⌊y⌋ ≤ ⌊x + y⌋ := by
  apply Int.le_floor.mpr
  push_cast
  exact add_le_add (Int.floor_le x) (Int.floor_le y)

theorem sum_map_floor_le (l : List ℚ) : (l.map fun q => ⌊q⌋).sum ≤ ⌊l.sum⌋ := by
  induction l with
  | nil => simp
  | cons a t ih =>
    simp only [List.map_cons, List.sum_cons]
    calc ⌊a⌋ + (t.map fun q => ⌊q⌋).sum ≤ ⌊a⌋ + ⌊t.sum⌋ := by omega
    _ ≤ ⌊a + t.sum⌋ := floor_add_floor_le a t.sum

theorem cast_list_sum (l : List ℤ) :
    ((l.sum : ℤ) : ℚ) = (l.map fun a : ℤ => (a : ℚ)).sum := by
  induction l with
  | nil => simp
  | cons a t ih => simp only [List.map_cons, List.sum_cons, Int.cast_add, ih]

theorem sum_map_mul_const (l : List ℚ) (c : ℚ) :
    (l.map fun q => q * c).sum = l.sum * c := by
  induction l with
  | nil => simp
  | cons a t ih => simp only [List.map_cons, List.sum_cons, ih]; ring

/-- C5: with a non-negative pot and a non-empty winning side of positive
bet amounts, each winner's payout is `int((amount / total) * (pot * 0.9))`,
these payouts are monotone in the bettor's spend (proportionality), the
admin gets `int(pot * 0.1)`, and the sum of all payout amounts never
exceeds the round's pot. -/
theorem calculate_payouts_spec (pot : ℤ) (winning_bets : List Bet)
    (hpot : 0 ≤ pot) (hamt : ∀ b ∈ winning_bets, 0 < b.amount)
    (hne : winning_bets ≠ []) :
    (calculate_payouts pot winning_bets
      = (winning_bets.map fun b =>
          ⟨b.sender, winner_payout_amount pot ((winning_bets.map Bet.amount).sum) b.amount⟩)
        ++ [⟨ADMIN_ADDRESS, admin_payout_amount pot⟩]) ∧
    (∀ b1 ∈ winning_bets, ∀ b2 ∈ winning_bets, b1.amount ≤ b2.amount →
      winner_payout_amount pot ((winning_bets.map Bet.amount).sum) b1.amount
        ≤ winner_payout_amount pot ((winning_bets.map Bet.amount).sum) b2.amount) ∧
    ((calculate_payouts pot winning_bets).map Payout.amount).sum ≤ pot := by
  set T : ℤ := (winning_bets.map Bet.amount).sum with hTdef
  have hT : 0 < T := by
    rw [hTdef]
    apply List.sum_pos
    · intro x hx
      obtain ⟨b, hb, rfl⟩ := List.mem_map.mp hx
      exact hamt b hb
    · simpa using hne
  have hTQ : (0 : ℚ) < (T : ℚ) := by exact_mod_cast hT
  have hPQ : (0 : ℚ) ≤ (pot : ℚ) := by exact_mod_cast hpot
  have hW : (0 : ℚ) ≤ (pot : ℚ) * (9 / 10) := by positivity
  refine ⟨rfl, ?_, ?_⟩
  · intro b1 h1 b2 h2 hle
    have ha1 : (0 : ℚ) ≤ (b1.amount : ℚ) := by exact_mod_cast (hamt b1 h1).le
    have hx1 : (0 : ℚ) ≤ ((b1.amount : ℚ) / (T : ℚ)) * ((pot : ℚ) * (9 / 10)) := by positivity
    have hx2 : (0 : ℚ) ≤ ((b2.amount : ℚ) / (T : ℚ)) * ((pot : ℚ) * (9 / 10)) := by
      have : (0 : ℚ) ≤ (b2.amount : ℚ) := by exact_mod_cast (hamt b2 h2).le
      positivity
    unfold winner_payout_amount
    rw [pyInt_eq_floor _ hx1, pyInt_eq_floor _ hx2]
    apply Int.floor_le_floor
    apply mul_le_mul_of_nonneg_right _ hW
    have hcast : (b1.amount : ℚ) ≤ (b2.amount : ℚ) := by exact_mod_cast hle
    exact div_le_div_of_nonneg_right hcast hTQ.le
  · have hTne : (T : ℚ) ≠ 0 := ne_of_gt hTQ
    have heach : ∀ b ∈ winning_bets,
        winner_payout_amount pot T b.amount
          = ⌊((b.amount : ℚ) / (T : ℚ)) * ((pot : ℚ) * (9 / 10))⌋ := by
      intro b hb
      have hb0 : (0 : ℚ) ≤ (b.amount : ℚ) := by exact_mod_cast (hamt b hb).le
      unfold winner_payout_amount
      exact pyInt_eq_floor _ (by positivity)
    have hlist : (winning_bets.map fun b => winner_payout_amount pot T b.amount)
        = ((winning_bets.map fun b =>
            ((b.amount : ℚ) / (T : ℚ)) * ((pot : ℚ) * (9 / 10))).map fun q => ⌊q⌋) := by
      rw [List.map_map]
      exact List.map_congr_left heach
    have hsum : (winning_bets.map fun b =>
        ((b.amount : ℚ) / (T : ℚ)) * ((pot : ℚ) * (9 / 10))).sum
          = (pot : ℚ) * (9 / 10) := by
      have hrw : (winning_bets.map fun b =>
          ((b.amount : ℚ) / (T : ℚ)) * ((pot : ℚ) * (9 / 10)))
            = ((winning_bets.map fun b => (b.amount : ℚ)).map
                fun q => q * (((pot : ℚ) * (9 / 10)) / (T : ℚ))) := by
        rw [List.map_map]
        refine List.map_congr_left fun b _ => ?_
        show ((b.amount : ℚ) / (T : ℚ)) * ((pot : ℚ) * (9 / 10))
          = (b.amount : ℚ) * (((pot : ℚ) * (9 / 10)) / (T : ℚ))
        ring
      have hcastsum : (winning_bets.map fun b => (b.amount : ℚ)).sum = (T : ℚ) := by
        rw [hTdef, cast_list_sum, List.map_map]
        rfl
      rw [hrw, sum_map_mul_const, hcastsum, mul_comm, div_mul_cancel₀ _ hTne]
    have key : (winning_bets.map fun b => winner_payout_amount pot T b.amount).sum
        ≤ ⌊(pot : ℚ) * (9 / 10)⌋ := by
      rw [hlist]
      calc ((winning_bets.map fun b =>
          ((b.amount : ℚ) / (T : ℚ)) * ((pot : ℚ) * (9 / 10))).map fun q => ⌊q⌋).sum
          ≤ ⌊(winning_bets.map fun b =>
              ((b.amount : ℚ) / (T : ℚ)) * ((pot : ℚ) * (9 / 10))).sum⌋ :=
            sum_map_floor_le _
        _ = ⌊(pot : ℚ) * (9 / 10)⌋ := by rw [hsum]
    have hexpand : ((calculate_payouts pot winning_bets).map Payout.amount).sum
        = (winning_bets.map fun b => winner_payout_amount pot T b.amount).sum
          + admin_payout_amount pot := by
      unfold calculate_payouts
      rw [← hTdef]
      simp only [List.map_append, List.map_map, List.sum_append, List.map_cons,
        List.map_nil, List.sum_cons, List.sum_nil, add_zero]
      rfl
    have hadmin : admin_payout_amount pot = ⌊(pot : ℚ) * (1 / 10)⌋ :=
      pyInt_eq_floor _ (by positivity)
    have hfinal : ⌊(pot : ℚ) * (9 / 10)⌋ + ⌊(pot : ℚ) * (1 / 10)⌋ ≤ pot := by
      calc ⌊(pot : ℚ) * (9 / 10)⌋ + ⌊(pot : ℚ) * (1 / 10)⌋
          ≤ ⌊(pot : ℚ) * (9 / 10) + (pot : ℚ) * (1 / 10)⌋ := floor_add_floor_le _ _
        _ = ⌊((pot : ℤ) : ℚ)⌋ := by
            rw [show (pot : ℚ) * (9 / 10) + (pot : ℚ) * (1 / 10) = ((pot : ℤ) : ℚ) by
              ring]
        _ = pot := Int.floor_intCast pot
    rw [hexpand, hadmin]
    omega

/-- A concrete winning side used to witness the payout theorem. -/
def sampleWinningBets : List Bet := [⟨"alice", 30⟩, ⟨"bob", 70⟩]

/-- Witness for C5: pot 100 with winning bets of 30 and 70. -/
theorem calculate_payouts_spec_witness :
    (calculate_payouts 100 sampleWinningBets
      = (sampleWinningBets.map fun b =>
          ⟨b.sender, winner_payout_amount 100
            ((sampleWinningBets.map Bet.amount).sum) b.amount⟩)
        ++ [⟨ADMIN_ADDRESS, admin_payout_amount 100⟩]) ∧
    (∀ b1 ∈ sampleWinningBets, ∀ b2 ∈ sampleWinningBets, b1.amount ≤ b2.amount →
      winner_payout_amount 100 ((sampleWinningBets.map Bet.amount).sum) b1.amount
        ≤ winner_payout_amount 100 ((sampleWinningBets.map Bet.amount).sum) b2.amount) ∧
    ((calculate_payouts 100 sampleWinningBets).map Payout.amount).sum ≤ 100 :=
  calculate_payouts_spec 100 sampleWinningBets (by decide) (by decide) (by decide)

/-- The `BetRequest` Pydantic model for POST /bet: transaction id, side and
prompt. -/
structure BetRequest where
  txid : String
  side : String
  prompt : String
deriving DecidableEq

/-- `BetRequest.validate_side`: raise unless the side is `'L'` or `'R'`. -/
def validate_side (v : String) : Except String String :=
  if v ∉ ["L", "R"] then Except.error "side must be either \"L\" or \"R\""
  else Except.ok v

/-- `BetRequest.validate_prompt`: raise when the prompt is longer than 70
characters. -/
def validate_prompt (v : String) : Except String String :=
  if v.length > 70 then Except.error "prompt must be 70 characters or less"
  else Except.ok v

/-- Request-schema validation of a `BetRequest`: the field validators run
and the first failure rejects the request. -/
def validate_bet_request (r : BetRequest) : Except String BetRequest :=
  match validate_side r.side with
  | Except.error e => Except.error e
  | Except.ok _ =>
    match validate_prompt r.prompt with
    | Except.error e => Except.error e
    | Except.ok _ => Except.ok r

/-- An HTTP status and message. -/
structure HttpResponse where
  status : Nat
  message : String
deriving DecidableEq

/-- The persistent state the POST /bet endpoint can touch: the round row
and the recorded bets. -/
structure BetDb where
  round : GameRound
  bets : List BetRequest
deriving DecidableEq

/-- Modelled from the spec: the POST /bet route module (`routes/bet.py`) is
not part of the repository snapshot. Per the spec, request-schema
validation failures surface as HTTP 4xx with a message: FastAPI returns
HTTP 422 when a Pydantic field validator rejects the request body, and the
route handler (which would record the bet and update the round) never
runs. -/
def post_bet (db : BetDb) (req : BetRequest)
    (handler : BetDb → BetRequest → BetDb × HttpResponse) : BetDb × HttpResponse :=
  match validate_bet_request req with
  | Except.error e => (db, ⟨422, e⟩)
  | Except.ok r => handler db r

/-- C7: a POST /bet whose side is neither `'L'` nor `'R'` is rejected with
HTTP 422 and the validator's message, no bet record is created and the
round state is unchanged — whatever the route handler would have done. -/
theorem post_bet_invalid_side (db : BetDb) (req : BetRequest)
    (handler : BetDb → BetRequest → BetDb × HttpResponse)
    (hL : req.side ≠ "L") (hR : req.side ≠ "R") :
    (post_bet db req handler).2.status = 422 ∧
    (post_bet db req handler).2.message = "side must be either \"L\" or \"R\"" ∧
    (post_bet db req handler).1.bets = db.bets ∧
    (post_bet db req handler).1.round = db.round := by
  have hv : validate_side req.side
      = Except.error "side must be either \"L\" or \"R\"" := by
    unfold validate_side
    rw [if_pos]
    simp [hL, hR]
  simp [post_bet, validate_bet_request, hv]

/-- A concrete database state used to witness the endpoint theorems. -/
def sampleBetDb : BetDb := ⟨⟨50, 10, 20, true⟩, []⟩

/-- A route handler that records the bet, used to witness that an invalid
side prevents it from running. -/
def recordingHandler : BetDb → BetRequest → BetDb × HttpResponse :=
  fun db r => ({ db with bets := r :: db.bets }, ⟨200, "ok"⟩)

/-- Witness for C7: side `"X"` is rejected and the state is untouched. -/
theorem post_bet_invalid_side_witness :
    (post_bet sampleBetDb ⟨"tx1", "X", "fireball"⟩ recordingHandler).2.status = 422 ∧
    (post_bet sampleBetDb ⟨"tx1", "X", "fireball"⟩ recordingHandler).2.message
      = "side must be either \"L\" or \"R\"" ∧
    (post_bet sampleBetDb ⟨"tx1", "X", "fireball"⟩ recordingHandler).1.bets
      = sampleBetDb.bets ∧
    (post_bet sampleBetDb ⟨"tx1", "X", "fireball"⟩ recordingHandler).1.round
      = sampleBetDb.round :=
  post_bet_invalid_side sampleBetDb ⟨"tx1", "X", "fireball"⟩ recordingHandler
    (by decide) (by decide)

/-- Outcome of one run of `BetDrawer.handleSubmit`: early return, an error
feedback message, or a submitted bet. -/
inductive SubmitOutcome
  | noop
  | feedback (message : String)
  | submit (side : String) (amount : ℚ) (spell : String)
deriving DecidableEq

/-- Whether the outcome actually submits a bet. -/
def SubmitOutcome.isSubmit : SubmitOutcome → Bool
  | SubmitOutcome.submit _ _ _ => true
  | _ => false

/-- `BetDrawer.handleSubmit`: early return when no side is chosen, the
spell is blank, a submission is in flight or the amount field is empty;
error feedback when the parsed amount is NaN (modelled as `none`) or below
the minimum, or when the word count exceeds 10; otherwise the bet is
submitted with the trimmed spell. -/
def handleSubmit (selectedSide spellText betAmount : String) (isSubmitting : Bool)
    (amountNumber : Option ℚ) (minimumBet : ℚ) (wordCount : Nat) : SubmitOutcome :=
  if selectedSide = "" ∨ spellText.trim = "" ∨ isSubmitting = true ∨ betAmount = "" then
    SubmitOutcome.noop
  else
    match amountNumber with
    | none => SubmitOutcome.feedback s!"Amount must be at least {minimumBet}."
    | some amount =>
      if amount < minimumBet then
        SubmitOutcome.feedback s!"Amount must be at least {minimumBet}."
      else if wordCount > 10 then SubmitOutcome.feedback "Spell exceeds 10 words."
      else SubmitOutcome.submit selectedSide amount spellText.trim

/-- The `disabled` guard of the BetDrawer submit button: no side chosen,
blank spell, more than 10 words, submission in flight, empty amount field,
or parsed amount below the minimum (`NaN < min` is false, as in JS). -/
def submitDisabled (selectedSide spellText : String) (wordCount : Nat)
    (isSubmitting : Bool) (betAmount : String) (amountNumber : Option ℚ)
    (minimumBet : ℚ) : Bool :=
  (selectedSide == "") || (spellText.trim == "") || decide (wordCount > 10)
    || isSubmitting || (betAmount == "")
    || (match amountNumber with
        | none => false
        | some amount => decide (amount < minimumBet))

/-- C8: a prompt longer than 70 characters fails `validate_prompt` with the
validator's message (surfacing as an HTTP 4xx through `post_bet`), and the
bet form never submits a spell of more than 10 words: `handleSubmit`
returns an error instead of submitting and the submit button is
disabled. -/
theorem bet_length_limits :
    (∀ v : String, 70 < v.length →
      validate_prompt v = Except.error "prompt must be 70 characters or less") ∧
    (∀ (db : BetDb) (req : BetRequest)
        (handler : BetDb → BetRequest → BetDb × HttpResponse),
      70 < req.prompt.length → (post_bet db req handler).2.status = 422) ∧
    (∀ (selectedSide spellText betAmount : String) (isSubmitting : Bool)
        (amountNumber : Option ℚ) (minimumBet : ℚ) (wordCount : Nat),
      wordCount = countWords spellText → 10 < wordCount →
      (handleSubmit selectedSide spellText betAmount isSubmitting amountNumber
          minimumBet wordCount).isSubmit = false) ∧
    (∀ (selectedSide spellText : String) (wordCount : Nat) (isSubmitting : Bool)
        (betAmount : String) (amountNumber : Option ℚ) (minimumBet : ℚ),
      10 < wordCount →
      submitDisabled selectedSide spellText wordCount isSubmitting betAmount
        amountNumber minimumBet = true) := by
  refine ⟨?_, ?_, ?_, ?_⟩
  · intro v h
    unfold validate_prompt
    rw [if_pos h]
  · intro db req handler h
    have hp : validate_prompt req.prompt
        = Except.error "prompt must be 70 characters or less" := by
      unfold validate_prompt
      rw [if_pos h]
    rcases hvs : validate_side req.side with e | s <;>
      simp [post_bet, validate_bet_request, hvs, hp]
  · intro side spell betAmt sub amt minB wc hwc hgt
    by_cases hguard : side = "" ∨ spell.trim = "" ∨ sub = true ∨ betAmt = ""
    · simp [handleSubmit, hguard, SubmitOutcome.isSubmit]
    · cases amt with
      | none => simp [handleSubmit, hguard, SubmitOutcome.isSubmit]
      | some a =>
        by_cases hlt : a < minB
        · simp [handleSubmit, hguard, hlt, SubmitOutcome.isSubmit]
        · simp [handleSubmit, hguard, hlt, hgt, SubmitOutcome.isSubmit]
  · intro side spell wc sub betAmt amt minB hgt
    unfold submitDisabled
    have hd : decide (wc > 10) = true := decide_eq_true hgt
    simp [hd]

/-- Witness for C8: a 71-character prompt is rejected, and an 11-word spell
neither submits nor leaves the button enabled. -/
theorem bet_length_limits_witness :
    validate_prompt "aaaaaaaaaaaaaaaaaaaaaaaaaaaaaaaaaaaaaaaaaaaaaaaaaaaaaaaaaaaaaaaaaaaaaaa"
      = Except.error "prompt must be 70 characters or less" ∧
    (post_bet sampleBetDb
      ⟨"tx1", "L", "aaaaaaaaaaaaaaaaaaaaaaaaaaaaaaaaaaaaaaaaaaaaaaaaaaaaaaaaaaaaaaaaaaaaaaa"⟩
      recordingHandler).2.status = 422 ∧
    (handleSubmit "left" "a b c d e f g h i j k" "1" false (some 1) 1
        (countWords "a b c d e f g h i j k")).isSubmit = false ∧
    submitDisabled "left" "a b c d e f g h i j k" 11 false "1" (some 1) 1 = true :=
  ⟨bet_length_limits.1 "aaaaaaaaaaaaaaaaaaaaaaaaaaaaaaaaaaaaaaaaaaaaaaaaaaaaaaaaaaaaaaaaaaaaaaa"
      (by decide),
   bet_length_limits.2.1 sampleBetDb
      ⟨"tx1", "L", "aaaaaaaaaaaaaaaaaaaaaaaaaaaaaaaaaaaaaaaaaaaaaaaaaaaaaaaaaaaaaaaaaaaaaaa"⟩
      recordingHandler (by decide),
   bet_length_limits.2.2.1 "left" "a b c d e f g h i j k" "1" false (some 1) 1
      (countWords "a b c d e f g h i j k") rfl (by decide),
   bet_length_limits.2.2.2 "left" "a b c d e f g h i j k" 11 false "1" (some 1) 1
      (by decide)⟩

/-- Modelled from the spec: the POST /admin/reset route handler and the
admin-token check (`routes/admin.py`, `utils/auth.py`) are not in the
repository snapshot. Per the spec and the endpoint documentation, the
request must carry `Authorization: Bearer ADMIN_TOKEN`; with the correct
token a new round is started (its timers initialized as in the Timer
Management section), otherwise the call fails with an HTTP 4xx and no
round is created. -/
def admin_reset (admin_token : String) (auth_header : Option String) (now : ℤ)
    (rounds : List RoundTimers) : List RoundTimers × HttpResponse :=
  match auth_header with
  | none => (rounds, ⟨401, "Missing admin token"⟩)
  | some tok =>
    if tok = "Bearer " ++ admin_token then
      (start_round now :: rounds, ⟨200, "success"⟩)
    else (rounds, ⟨401, "Invalid admin token"⟩)

/-- C9: with the correct bearer token, /admin/reset creates a new round
whose `started_at`, `current_deadline` and `absolute_deadline` are
initialized from `now`; with a missing or wrong token the call fails with
an HTTP 4xx status and the set of rounds is unchanged. -/
theorem admin_reset_auth (admin_token : String) (now : ℤ)
    (rounds : List RoundTimers) :
    ((admin_reset admin_token (some ("Bearer " ++ admin_token)) now rounds).1
        = start_round now :: rounds ∧
      (admin_reset admin_token (some ("Bearer " ++ admin_token)) now rounds).2.status
        = 200 ∧
      (start_round now).started_at = now ∧
      (start_round now).current_deadline = now + ROUND_INACTIVITY_TIMEOUT_SEC ∧
      (start_round now).absolute_deadline = now + MAX_ROUND_DURATION_SEC) ∧
    (∀ auth : Option String, auth ≠ some ("Bearer " ++ admin_token) →
      (admin_reset admin_token auth now rounds).1 = rounds ∧
      400 ≤ (admin_reset admin_token auth now rounds).2.status ∧
      (admin_reset admin_token auth now rounds).2.status < 500) := by
  constructor
  · simp only [admin_reset, if_pos rfl]
    exact ⟨rfl, rfl, rfl, rfl, rfl⟩
  · intro auth h
    cases auth with
    | none =>
      refine ⟨rfl, ?_, ?_⟩ <;> norm_num [admin_reset]
    | some tok =>
      have htok : tok ≠ "Bearer " ++ admin_token := fun heq => h (by rw [heq])
      refine ⟨?_, ?_, ?_⟩ <;> simp [admin_reset, if_neg htok]

/-- Witness for C9: a request with no Authorization header is rejected and
creates no round. -/
theorem admin_reset_auth_witness :
    (admin_reset "verysecretadmintoken" none 0 []).1 = [] ∧
    400 ≤ (admin_reset "verysecretadmintoken" none 0 []).2.status ∧
    (admin_reset "verysecretadmintoken" none 0 []).2.status < 500 :=
  (admin_reset_auth "verysecretadmintoken" 0 []).2 none (by decide)

end AlgoFOMO
